import Mathlib

/-!
Verification of the tweet-post repository (twitter_tool.py, post_generator.py)
against its natural-language specification.

The Python code is shallowly embedded: pure data manipulation is translated
directly; effects (file system, Playwright page fetches, LLM invocations)
are passed in as explicit inputs holding the value the effect produced.
Python dicts are modelled as association lists of string keys and JSON
values (insertion order preserved, as in Python 3.7+); Python floats are
modelled as rationals; Python `str.strip`/`str.lower` are modelled over the
ASCII fragment of their Unicode behaviour.
-/

namespace TweetPost

/-! ### JSON values and Python-style dicts -/

/-- JSON values, as produced by `json.loads` and handled throughout the code. -/
inductive JsonVal where
  | null
  | bool (b : Bool)
  | num (n : ℚ)
  | str (s : String)
  | arr (xs : List JsonVal)
  | obj (fields : List (String × JsonVal))

/-- A Python dict with string keys, in insertion order. -/
abbrev RDict := List (String × JsonVal)

/-- Dict lookup `d[k]`: the value at the first entry with key `k` (dicts built by
the code have unique keys, so this is the dict lookup). -/
def dictGet (d : RDict) (k : String) : Option JsonVal :=
  (d.find? (fun e => e.1 == k)).map (fun e => e.2)

/-- The keys of a dict. -/
def dictKeys (d : RDict) : List String := d.map (fun e => e.1)

/-- Python `d.setdefault(k, v)`: insert `k ↦ v` at the end when `k` is absent. -/
def setdefault (d : RDict) (k : String) (v : JsonVal) : RDict :=
  if (dictGet d k).isSome then d else d ++ [(k, v)]

/-- Python `d[k] = v`: update the existing entry in place, else append. -/
def dictSet (d : RDict) (k : String) (v : JsonVal) : RDict :=
  if (dictGet d k).isSome then d.map (fun e => if e.1 == k then (e.1, v) else e)
  else d ++ [(k, v)]

/-- Python truthiness of a JSON value (`bool(v)`). -/
def pyTruthy : JsonVal → Bool
  | .null => false
  | .bool b => b
  | .num n => n != 0
  | .str s => s != ""
  | .arr xs => !xs.isEmpty
  | .obj fs => !fs.isEmpty

/-! ### Characters and strings: Python `strip` / `lower` / whitespace -/

/-- Python whitespace (the ASCII part of `\s` and of `str.strip`). -/
def isSpaceChar (c : Char) : Bool :=
  c == ' ' || c == '\t' || c == '\n' || c == '\r' || c == '\x0b' || c == '\x0c'

/-- Python `str.strip()`: drop whitespace at both ends of the character list. -/
def stripChars (l : List Char) : List Char :=
  ((l.dropWhile isSpaceChar).reverse.dropWhile isSpaceChar).reverse

/-- Python `str.lower()` on one character (ASCII fragment). -/
def lowerChar (c : Char) : Char :=
  if 'A' ≤ c ∧ c ≤ 'Z' then Char.ofNat (c.toNat + 32) else c

/-- The normalization `text.strip().lower()` used by `_deduplicate_tweets`
(twitter_tool.py line 355). -/
def normText (s : String) : String :=
  String.mk ((stripChars s.data).map lowerChar)

/-! ### The tweet record

The tweet dict built by `scrape_with_playwright` (twitter_tool.py lines
232-242): `engagement_score` is `Option` because tweets loaded from disk by
`post_generator.load_tweets` may lack the key. -/

structure Tweet where
  id : String
  text : String
  likes : Nat
  retweets : Nat
  replies : Nat
  views : Nat
  date : String
  user : String
  engagement_score : Option ℚ
deriving DecidableEq, Repr

/-! ### Deduplication (`_deduplicate_tweets`, twitter_tool.py lines 350-361) -/

/-- The loop of `_deduplicate_tweets`: `seen` is the `seen_texts` set, a tweet
is kept when its normalized text is non-empty (truthy) and unseen. -/
def dedupAux (seen : List String) : List Tweet → List Tweet
  | [] => []
  | t :: ts =>
    let x := normText t.text
    if x ≠ "" ∧ x ∉ seen then t :: dedupAux (x :: seen) ts
    else dedupAux seen ts

/-- The method `_deduplicate_tweets(tweets)`. -/
def deduplicate_tweets (tweets : List Tweet) : List Tweet :=
  dedupAux [] tweets

lemma dedupAux_norm_nodup (ts : List Tweet) : ∀ seen : List String,
    ((dedupAux seen ts).map (fun t => normText t.text)).Nodup ∧
    ∀ y ∈ (dedupAux seen ts).map (fun t => normText t.text), y ∉ seen := by
  induction ts with
  | nil => intro seen; simp [dedupAux]
  | cons t ts ih =>
    intro seen
    by_cases h : normText t.text ≠ "" ∧ normText t.text ∉ seen
    · obtain ⟨ihn, ihs⟩ := ih (normText t.text :: seen)
      simp only [dedupAux, if_pos h, List.map_cons]
      refine ⟨List.nodup_cons.mpr ⟨?_, ihn⟩, ?_⟩
      · intro hmem
        exact ihs _ hmem (List.mem_cons_self _ _)
      · intro y hy
        rcases List.mem_cons.mp hy with rfl | hy
        · exact h.2
        · intro hz
          exact ihs y hy (List.mem_cons_of_mem _ hz)
    · simp only [dedupAux, if_neg h]
      exact ih seen

lemma dedupAux_mem (ts : List Tweet) : ∀ seen : List String,
    ∀ t ∈ dedupAux seen ts, t ∈ ts ∧ normText t.text ≠ "" := by
  induction ts with
  | nil => intro seen; simp [dedupAux]
  | cons t ts ih =>
    intro seen u hu
    by_cases h : normText t.text ≠ "" ∧ normText t.text ∉ seen
    · simp only [dedupAux, if_pos h, List.mem_cons] at hu
      rcases hu with rfl | hu
      · exact ⟨List.mem_cons_self _ _, h.1⟩
      · obtain ⟨h1, h2⟩ := ih _ u hu
        exact ⟨List.mem_cons_of_mem _ h1, h2⟩
    · simp only [dedupAux, if_neg h] at hu
      obtain ⟨h1, h2⟩ := ih _ u hu
      exact ⟨List.mem_cons_of_mem _ h1, h2⟩

lemma dedupAux_complete (ts : List Tweet) : ∀ seen : List String,
    ∀ t ∈ ts, normText t.text ≠ "" →
      normText t.text ∈ seen ∨
      normText t.text ∈ (dedupAux seen ts).map (fun u => normText u.text) := by
  induction ts with
  | nil => intro seen; simp
  | cons t ts ih =>
    intro seen u hu hne
    by_cases h : normText t.text ≠ "" ∧ normText t.text ∉ seen
    · simp only [dedupAux, if_pos h, List.map_cons, List.mem_cons]
      rcases List.mem_cons.mp hu with rfl | hu
      · exact Or.inr (Or.inl rfl)
      · rcases ih (normText t.text :: seen) u hu hne with hs | hd
        · rcases List.mem_cons.mp hs with he | hs
          · exact Or.inr (Or.inl he)
          · exact Or.inl hs
        · exact Or.inr (Or.inr hd)
    · simp only [dedupAux, if_neg h]
      rcases List.mem_cons.mp hu with rfl | hu
      · rw [not_and_or, not_not, not_not] at h
        rcases h with h | h
        · exact absurd h hne
        · exact Or.inl h
      · exact ih seen u hu hne

/-- C1: deduplication keeps, among tweets with non-empty normalized
(strip-then-lowercase) text, exactly one tweet per distinct normalized text:
the normalized texts of the output are pairwise distinct, every output tweet
comes from the input and has non-empty normalized text, and every distinct
non-empty normalized text of the input occurs in the output. -/
theorem deduplicate_tweets_unique_per_norm (tweets : List Tweet) :
    ((deduplicate_tweets tweets).map (fun t => normText t.text)).Nodup ∧
    (∀ t ∈ deduplicate_tweets tweets, t ∈ tweets ∧ normText t.text ≠ "") ∧
    (∀ t ∈ tweets, normText t.text ≠ "" →
      normText t.text ∈ (deduplicate_tweets tweets).map (fun u => normText u.text)) := by
  refine ⟨(dedupAux_norm_nodup tweets []).1, dedupAux_mem tweets [], ?_⟩
  intro t ht hne
  rcases dedupAux_complete tweets [] t ht hne with hs | hd
  · exact absurd hs (List.not_mem_nil _)
  · exact hd

/-- Example tweets used by witnesses. -/
def twHello : Tweet :=
  { id := "1", text := "hello world tweet", likes := 3, retweets := 1, replies := 0,
    views := 40, date := "2025-05-15", user := "u", engagement_score := some 5 }

/-- A duplicate of `twHello` up to case and surrounding whitespace. -/
def twHelloDup : Tweet :=
  { id := "2", text := " Hello world tweet ", likes := 0, retweets := 0, replies := 0,
    views := 0, date := "2025-05-15", user := "u", engagement_score := some 0 }

/-- Witness for C1 at a concrete input with a normalized duplicate. -/
theorem deduplicate_tweets_unique_per_norm_witness :
    normText twHelloDup.text ∈
      (deduplicate_tweets [twHello, twHelloDup]).map (fun u => normText u.text) :=
  (deduplicate_tweets_unique_per_norm [twHello, twHelloDup]).2.2 twHelloDup
    (by decide) (by decide)

/-! ### User-info storage (`save_user_info` / `get_user_info`,
twitter_tool.py lines 29-80)

The per-user JSON files are modelled as a map from user id to the stored
dict; the `except` branches (file-system errors) are modelled by an injected
`disk_error` input carrying the exception text. -/

/-- The user-info directory: `user_id ↦` contents of `{user_id}_info.json`. -/
abbrev UserStore := String → Option RDict

/-- Python `{**existing, **info}` (for dicts with unique keys): the keys of
`existing` in order with values overridden by `info`, followed by the keys of
`info` absent from `existing`, in order. -/
def pyMerge (existing info : RDict) : RDict :=
  (existing.map (fun e => (e.1, (dictGet info e.1).getD e.2))) ++
    info.filter (fun e => (dictGet existing e.1).isNone)

/-- Method `save_user_info(user_id, info)` (twitter_tool.py lines 29-52): merge into
the existing file and write back; returns the new store and the result dict. -/
def save_user_info (store : UserStore) (disk_error : Option String)
    (user_id : String) (info : RDict) : UserStore × RDict :=
  match disk_error with
  | some e =>
    (store, [("success", .bool false),
             ("message", .str ("Error saving user information: " ++ e))])
  | none =>
    let existing_info := (store user_id).getD []
    let merged_info := pyMerge existing_info info
    (fun u => if u == user_id then some merged_info else store u,
     [("success", .bool true),
      ("message", .str ("Successfully saved user information for " ++ user_id)),
      ("user_info", .obj merged_info)])

/-- Method `get_user_info(user_id)` (twitter_tool.py lines 54-80). -/
def get_user_info (store : UserStore) (disk_error : Option String)
    (user_id : String) : RDict :=
  match disk_error with
  | some e =>
    [("success", .bool false),
     ("message", .str ("Error retrieving user information: " ++ e)),
     ("user_info", .obj [])]
  | none =>
    match store user_id with
    | none =>
      [("success", .bool false),
       ("message", .str ("No information found for " ++ user_id)),
       ("user_info", .obj [])]
    | some user_info =>
      [("success", .bool true),
       ("message", .str ("Successfully retrieved user information for " ++ user_id)),
       ("user_info", .obj user_info)]

lemma dictGet_cons (e : String × JsonVal) (d : RDict) (k : String) :
    dictGet (e :: d) k = if e.1 == k then some e.2 else dictGet d k := by
  by_cases h : (e.1 == k) = true
  · rw [if_pos h]
    unfold dictGet
    rw [List.find?_cons_of_pos (p := fun x : String × JsonVal => x.1 == k) _ h]
    rfl
  · rw [if_neg h]
    unfold dictGet
    rw [List.find?_cons_of_neg (p := fun x : String × JsonVal => x.1 == k) _ h]

lemma dictGet_append (d1 d2 : RDict) (k : String) :
    dictGet (d1 ++ d2) k = (dictGet d1 k).or (dictGet d2 k) := by
  induction d1 with
  | nil =>
    cases h : dictGet d2 k with
    | some v => simp [dictGet] at h ⊢; exact h
    | none => simp [dictGet] at h ⊢; exact h
  | cons e d1 ih =>
    rw [List.cons_append, dictGet_cons, dictGet_cons]
    by_cases h : (e.1 == k) = true
    · rw [if_pos h, if_pos h]; rfl
    · rw [if_neg h, if_neg h]; exact ih

lemma dictGet_mapOverride (a b : RDict) (k : String) :
    dictGet (a.map (fun e => (e.1, (dictGet b e.1).getD e.2))) k =
      (dictGet a k).map (fun v => (dictGet b k).getD v) := by
  induction a with
  | nil => rfl
  | cons e a ih =>
    rw [List.map_cons, dictGet_cons, dictGet_cons]
    by_cases h : (e.1 == k) = true
    · have hk : e.1 = k := by simpa using h
      rw [if_pos h, if_pos h, hk]
      rfl
    · rw [if_neg h, if_neg h]
      exact ih

lemma dictGet_eq_none_iff (d : RDict) (k : String) :
    dictGet d k = none ↔ k ∉ dictKeys d := by
  simp only [dictGet, Option.map_eq_none', List.find?_eq_none, dictKeys, List.mem_map]
  constructor
  · rintro h ⟨e, he, hek⟩
    exact h e he (by simpa using hek)
  · intro h e he hek
    exact h ⟨e, he, by simpa using hek⟩

lemma dictGet_filter_keyTrue (b : RDict) (p : String × JsonVal → Bool) (k : String)
    (hp : ∀ v, p (k, v) = true) :
    dictGet (b.filter p) k = dictGet b k := by
  induction b with
  | nil => rfl
  | cons e b ih =>
    by_cases hk : (e.1 == k) = true
    · have hek : e.1 = k := by simpa using hk
      have hpe : p e = true := by
        obtain ⟨k1, v1⟩ := e
        simp only at hek
        subst hek
        exact hp v1
      rw [List.filter_cons_of_pos hpe, dictGet_cons, dictGet_cons, if_pos hk, if_pos hk]
    · by_cases hpe : p e = true
      · rw [List.filter_cons_of_pos hpe, dictGet_cons, dictGet_cons, if_neg hk, if_neg hk]
        exact ih
      · rw [List.filter_cons_of_neg hpe, ih, dictGet_cons, if_neg hk]

/-- Lookup in a Python dict merge: the later dict wins key by key. -/
lemma dictGet_pyMerge (a b : RDict) (k : String) :
    dictGet (pyMerge a b) k = (dictGet b k).or (dictGet a k) := by
  rw [pyMerge, dictGet_append, dictGet_mapOverride]
  cases ha : dictGet a k with
  | some v =>
    cases hb : dictGet b k with
    | some w => rfl
    | none => rfl
  | none =>
    have hkeys : k ∉ dictKeys a := (dictGet_eq_none_iff a k).mp ha
    rw [dictGet_filter_keyTrue b _ k (fun v => by simp [ha])]
    cases hb : dictGet b k with
    | some w => rfl
    | none => rfl

lemma dictGet_isSome_of_mem_keys (d : RDict) (k : String) (h : k ∈ dictKeys d) :
    (dictGet d k).isSome := by
  cases hd : dictGet d k with
  | some v => rfl
  | none => exact absurd h ((dictGet_eq_none_iff d k).mp hd)

/-- C3: saving user info twice for the same user id merges rather than
replaces: in the stored profile after the two saves, every key of the second
save holds the second save's value (overlapping keys take the later value,
keys only in the later save are added), and every key present only in the
first save keeps the first save's value. -/
theorem save_user_info_merge (store : UserStore) (uid : String) (i1 i2 : RDict) :
    (∀ k, k ∈ dictKeys i2 →
      dictGet (((save_user_info (save_user_info store none uid i1).1 none uid i2).1 uid).getD []) k
        = dictGet i2 k) ∧
    (∀ k, k ∈ dictKeys i1 → k ∉ dictKeys i2 →
      dictGet (((save_user_info (save_user_info store none uid i1).1 none uid i2).1 uid).getD []) k
        = dictGet i1 k) := by
  have hstep : ((save_user_info (save_user_info store none uid i1).1 none uid i2).1 uid).getD []
      = pyMerge (pyMerge ((store uid).getD []) i1) i2 := by
    simp [save_user_info]
  rw [hstep]
  constructor
  · intro k hk2
    rw [dictGet_pyMerge]
    cases h2 : dictGet i2 k with
    | some v => rfl
    | none => exact absurd hk2 ((dictGet_eq_none_iff i2 k).mp h2)
  · intro k hk1 hk2
    rw [dictGet_pyMerge, dictGet_pyMerge, (dictGet_eq_none_iff i2 k).mpr hk2]
    cases h1 : dictGet i1 k with
    | some v => rfl
    | none => exact absurd hk1 ((dictGet_eq_none_iff i1 k).mp h1)

/-- An empty user-info store. -/
def emptyStore : UserStore := fun _ => none

/-- Witness for C3: two concrete saves with overlapping key "b". -/
theorem save_user_info_merge_witness :
    dictGet (((save_user_info
        (save_user_info emptyStore none "u" [("a", .str "1"), ("b", .str "2")]).1
        none "u" [("b", .str "3"), ("c", .str "4")]).1 "u").getD []) "b"
      = dictGet [("b", JsonVal.str "3"), ("c", JsonVal.str "4")] "b" :=
  (save_user_info_merge emptyStore "u" [("a", .str "1"), ("b", .str "2")]
    [("b", .str "3"), ("c", .str "4")]).1 "b" (by decide)

/-- C9: save/get round trip — a save (with no file-system error) reports
success, and a subsequent get for the same user id reports success and
returns exactly the merged profile the save reported. -/
theorem save_get_roundtrip (store : UserStore) (uid : String) (info : RDict) :
    dictGet (save_user_info store none uid info).2 "success" = some (.bool true) ∧
    dictGet (get_user_info (save_user_info store none uid info).1 none uid) "success"
      = some (.bool true) ∧
    dictGet (get_user_info (save_user_info store none uid info).1 none uid) "user_info"
      = dictGet (save_user_info store none uid info).2 "user_info" := by
  refine ⟨rfl, ?_, ?_⟩ <;> simp [save_user_info, get_user_info, dictGet]

/-! ### JSON recovery (`parse_json_from_response`, twitter_tool.py lines
659-679)

The stdlib parser `json.loads` is passed in as `loads`, returning `none`
where Python raises `JSONDecodeError`. The two regex searches are embedded
directly over character lists. -/

/-- Left brace character, written by code point. -/
def lbrace : Char := Char.ofNat 123

/-- Right brace character, written by code point. -/
def rbrace : Char := Char.ofNat 125

/-- Characters preceding the first occurrence of `needle` in the list
(`none` when `needle` does not occur): the lazy `[\s\S]*?` capture followed
by the literal `needle`. -/
def beforeSub (needle : List Char) : List Char → Option (List Char)
  | [] => if needle.isEmpty then some [] else none
  | c :: rest =>
    if needle.isPrefixOf (c :: rest) then some []
    else (beforeSub needle rest).map (fun tail => c :: tail)

/-- Match of the pattern ```` ```(?:json)?\n([\s\S]*?)\n``` ```` anchored at
this position: the greedy optional `json` can only succeed as written, and
the lazy body runs to the first closing `` \n``` ``. -/
def codeBlockAt (l : List Char) : Option (List Char) :=
  if ("```json\n".data).isPrefixOf l then beforeSub ("\n```".data) (l.drop 8)
  else if ("```\n".data).isPrefixOf l then beforeSub ("\n```".data) (l.drop 4)
  else none

/-- Search `re.search(r'```(?:json)?\n([\s\S]*?)\n```', text)`: the captured
body at the leftmost matching position. -/
def findCodeBlock : List Char → Option (List Char)
  | [] => none
  | c :: rest =>
    match codeBlockAt (c :: rest) with
    | some body => some body
    | none => findCodeBlock rest

/-- Truncation of the list at the last occurrence of `c` (inclusive), `none`
when `c` does not occur: the greedy `[\s\S]*` followed by the literal `c`. -/
def uptoLast (c : Char) (l : List Char) : Option (List Char) :=
  match l.reverse.dropWhile (fun d => d != c) with
  | [] => none
  | d :: tl => some (d :: tl).reverse

/-- Match of `(\{[\s\S]*\}|\[[\s\S]*\])` anchored at this position: an
opening brace with a later closing brace (greedily to the last one), else
the same with square brackets. -/
def bracketScanAt : List Char → Option (List Char)
  | [] => none
  | c :: rest =>
    if c == lbrace then (uptoLast rbrace rest).map (fun m => c :: m)
    else if c == '[' then (uptoLast ']' rest).map (fun m => c :: m)
    else none

/-- Search `re.search(r'(\{[\s\S]*\}|\[[\s\S]*\])', text, re.DOTALL)`: the
capture at the leftmost matching position. -/
def bracketScan : List Char → Option (List Char)
  | [] => none
  | c :: rest =>
    match bracketScanAt (c :: rest) with
    | some m => some m
    | none => bracketScan rest

/-- Result when `json.loads` of an extracted fragment raises: the outer
`except` returns `{"error": f"JSON parsing error: {e}"}` (dynamic exception
text abstracted). -/
def jsonErrorDict : JsonVal :=
  .obj [("error", .str "JSON parsing error")]

/-- Fixed fallback object when no JSON-looking fragment is found
(twitter_tool.py line 675). -/
def jsonFallbackDict : JsonVal :=
  .obj [("post", .str "JSON parsing error"), ("hashtags", .arr [])]

/-- Method `parse_json_from_response(text)` (twitter_tool.py lines 659-679):
direct parse, then fenced-code-block parse, then bracket-scan regex, then
the fixed fallback object. -/
def parse_json_from_response (loads : String → Option JsonVal) (text : String) : JsonVal :=
  match loads text with
  | some v => v
  | none =>
    match findCodeBlock text.data with
    | some body =>
      match loads (String.mk body) with
      | some v => v
      | none => jsonErrorDict
    | none =>
      match bracketScan text.data with
      | some captured =>
        match loads (String.mk captured) with
        | some v => v
        | none => jsonErrorDict
      | none => jsonFallbackDict

/-- C4: when the response itself is not valid JSON but the fenced-code-block
pattern matches with a body that parses as a JSON object, the function
returns exactly that object — the fallback order (direct parse, fenced code
block, bracket scan, fixed fallback) stops at the code-block stage. -/
theorem parse_json_from_response_code_block (loads : String → Option JsonVal)
    (text : String) (body : List Char) (o : List (String × JsonVal))
    (h1 : loads text = none)
    (h2 : findCodeBlock text.data = some body)
    (h3 : loads (String.mk body) = some (.obj o)) :
    parse_json_from_response loads text = .obj o := by
  simp only [parse_json_from_response, h1, h2, h3]

/-- Toy JSON parser for the C4 witness: recognizes exactly `\x7b"a": 1\x7d`. -/
def loadsToy : String → Option JsonVal := fun s =>
  if s = "\x7b\"a\": 1\x7d" then some (.obj [("a", .num 1)]) else none

/-- Witness for C4: a response wrapped in a ```json fence is recovered. -/
theorem parse_json_from_response_code_block_witness :
    parse_json_from_response loadsToy "oops\n```json\n\x7b\"a\": 1\x7d\n```"
      = .obj [("a", .num 1)] :=
  parse_json_from_response_code_block loadsToy "oops\n```json\n\x7b\"a\": 1\x7d\n```"
    ("\x7b\"a\": 1\x7d".data) [("a", .num 1)] rfl (by decide) rfl

/-! ### The scraper (`scrape_with_playwright`, twitter_tool.py lines 82-276)

The browser session is abstracted into an environment delivering, for each
source and attempt, the outcome of loading the page; the extraction of one
timeline element from the DOM selectors is abstracted into a `RawItem`.
Everything downstream of those inputs is embedded directly. -/

/-- Whitespace collapsing `re.sub(r'\s+', ' ', text)`: each maximal run of
whitespace becomes one space; `prevWs` records whether the previous
character was whitespace. -/
def collapseWsAux : Bool → List Char → List Char
  | _, [] => []
  | prevWs, c :: rest =>
    if isSpaceChar c then
      if prevWs then collapseWsAux true rest
      else ' ' :: collapseWsAux true rest
    else c :: collapseWsAux false rest

/-- Collapse runs of whitespace to single spaces. -/
def collapseWs (l : List Char) : List Char := collapseWsAux false l

/-- Text cleanup of the extraction loop (twitter_tool.py lines 192-193):
`.strip()` then `re.sub(r'\s+', ' ', text)`. -/
def processText (raw : String) : List Char :=
  collapseWs (stripChars raw.data)

/-- One timeline element as seen by the extraction loop, after the
selector/regex parsing of the DOM (lines 189-230, abstracted): the raw text
content (`none` when the content selector finds nothing, or extraction
raised), the parsed stats, the date, and the status id from the permalink. -/
structure RawItem where
  textContent : Option String
  likes : Nat
  retweets : Nat
  replies : Nat
  date : String
  statusId : Option String
deriving DecidableEq, Repr

/-- Body of the per-element extraction (twitter_tool.py lines 185-244): skip
when there is no text element or the cleaned text is shorter than 10
characters, else build the tweet dict of lines 232-242 with the text
truncated to 280 characters. -/
def extractTweet (source_type : String) (i : Nat) (username : String)
    (item : RawItem) : Option Tweet :=
  match item.textContent with
  | none => none
  | some raw =>
    if (processText raw).length < 10 then none
    else some
      { id := item.statusId.getD (source_type ++ "_" ++ toString i),
        text := String.mk ((processText raw).take 280),
        likes := item.likes,
        retweets := item.retweets,
        replies := item.replies,
        views := (item.likes + item.retweets) * 10,
        date := item.date,
        user := username,
        engagement_score :=
          some ((item.likes : ℚ) + item.retweets * 2 + item.replies * (1 / 2)) }

/-- Loop `for i, element in enumerate(tweet_elements)`: stop once
`max_results` tweets are collected, skip failed extractions, append. -/
def processElems (maxResults : Nat) (source_type username : String) :
    Nat → List Tweet → List RawItem → List Tweet
  | _, tweets, [] => tweets
  | i, tweets, item :: rest =>
    if maxResults ≤ tweets.length then tweets
    else
      match extractTweet source_type i username item with
      | none => processElems maxResults source_type username (i + 1) tweets rest
      | some t => processElems maxResults source_type username (i + 1) (tweets ++ [t]) rest

/-- Outcome of one attempt at one source: a Playwright or unexpected error
(retried), an error panel, a verification/login challenge, no timeline
items, or a list of timeline elements. -/
inductive PageOutcome where
  | failure
  | errorPanel
  | challenge
  | noTweets
  | elems (items : List RawItem)

/-- Retry loop (`retries = 2`, attempts 0..2): the first attempt that does
not raise; when all three raise, the loop falls through to the next source. -/
def firstNonFailure (attempt : Nat → PageOutcome) : Option PageOutcome :=
  match attempt 0 with
  | .failure =>
    match attempt 1 with
    | .failure =>
      match attempt 2 with
      | .failure => none
      | o => some o
    | o => some o
  | o => some o

/-- One source of the source loop: on the first non-raising attempt, an
error panel, a challenge or a missing timeline leaves the collected tweets
unchanged; found elements run through the extraction loop. -/
def trySource (maxResults : Nat) (source_type username : String)
    (attempt : Nat → PageOutcome) (tweets : List Tweet) : List Tweet :=
  match firstNonFailure attempt with
  | some (.elems items) => processElems maxResults source_type username 0 tweets items
  | _ => tweets

/-- The fixed source list (twitter_tool.py lines 87-91): display name, URL
(`base_url.format(username=username)`), source type. -/
def sourceList (username : String) : List (String × String × String) :=
  [("X.com (primary)", "https://x.com/" ++ username, "xcom"),
   ("Nitter (primary)", "https://nitter.net/" ++ username, "nitter"),
   ("Nitter (fallback)", "https://nitter.tiekoetter.com/" ++ username, "nitter")]

/-- The source loop: break once the target count is reached. Returns the
collected tweets together with the list of sources actually attempted. -/
def scrapeGo (maxResults : Nat) (username : String)
    (env : String × String × String → Nat → PageOutcome) :
    List (String × String × String) → List Tweet →
      List Tweet × List (String × String × String)
  | [], tweets => (tweets, [])
  | s :: rest, tweets =>
    if maxResults ≤ tweets.length then (tweets, [])
    else
      let tweets' := trySource maxResults s.2.2 username (env s) tweets
      let p := scrapeGo maxResults username env rest tweets'
      (p.1, s :: p.2)

/-- Method `scrape_with_playwright(username, max_results)`: the source loop
over the fixed source list, starting from no tweets. -/
def scrape_with_playwright (username : String)
    (env : String × String × String → Nat → PageOutcome) (maxResults : Nat) :
    List Tweet :=
  (scrapeGo maxResults username env (sourceList username) []).1

/-- Per-tweet fixup in `PostGenerator.load_tweets` (post_generator.py lines
24-29): a tweet without the engagement_score key gets `likes + retweets*2`. -/
def fillScore (t : Tweet) : Tweet :=
  match t.engagement_score with
  | none => { t with engagement_score := some ((t.likes : ℚ) + t.retweets * 2) }
  | some _ => t

/-- Method `PostGenerator.load_tweets(username)` (post_generator.py lines
17-33): the saved tweets file (`none` models `FileNotFoundError`), each
loaded tweet given an engagement score when missing. -/
def load_tweets (file : Option (List Tweet)) : List Tweet :=
  match file with
  | none => []
  | some tweets => tweets.map fillScore

/-- C2: the scraper gives every tweet dict it builds
engagement_score = likes + 2×retweets + 0.5×replies, and `load_tweets`
assigns engagement_score = likes + 2×retweets to every tweet loaded without
a stored score. -/
theorem engagement_score_formula :
    (∀ (st : String) (i : Nat) (u : String) (item : RawItem) (t : Tweet),
      extractTweet st i u item = some t →
      t.engagement_score = some ((t.likes : ℚ) + 2 * t.retweets + (1 / 2) * t.replies)) ∧
    (∀ l : List Tweet, ∀ t ∈ l, t.engagement_score = none →
      { t with engagement_score := some ((t.likes : ℚ) + 2 * t.retweets) }
        ∈ load_tweets (some l)) := by
  constructor
  · intro st i u item t h
    obtain ⟨tc, lk, rt, rp, dt, sid⟩ := item
    cases tc with
    | none => exact absurd h (by simp [extractTweet])
    | some raw =>
      simp only [extractTweet] at h
      by_cases hlen : (processText raw).length < 10
      · rw [if_pos hlen] at h; exact absurd h (by simp)
      · rw [if_neg hlen] at h
        obtain rfl := Option.some.inj h
        exact congrArg some (by push_cast; ring)
  · intro l t ht hnone
    refine List.mem_map.mpr ⟨t, ht, ?_⟩
    have harith : (t.likes : ℚ) + t.retweets * 2 = (t.likes : ℚ) + 2 * t.retweets := by ring
    simp [fillScore, hnone, harith]

/-- Concrete raw timeline item used by witnesses. -/
def rawItemEx : RawItem :=
  { textContent := some "hello world tweet", likes := 3, retweets := 1, replies := 2,
    date := "2025-05-15", statusId := some "42" }

/-- The tweet `extractTweet` builds from `rawItemEx` (the engagement score
expression evaluates to 6). -/
def extractedEx : Tweet :=
  { id := "42", text := "hello world tweet", likes := 3, retweets := 1, replies := 2,
    views := 40, date := "2025-05-15", user := "u",
    engagement_score := some (((3 : ℕ) : ℚ) + ((1 : ℕ) : ℚ) * 2 + ((2 : ℕ) : ℚ) * (1 / 2)) }

/-- Witness for C2 at a concrete extraction. -/
theorem engagement_score_formula_witness :
    extractedEx.engagement_score
      = some ((extractedEx.likes : ℚ) + 2 * extractedEx.retweets
          + (1 / 2) * extractedEx.replies) :=
  engagement_score_formula.1 "nitter" 0 "u" rawItemEx extractedEx rfl

/-- C10: every tweet the extraction loop emits has non-empty text of at most
280 characters (cleaned texts shorter than 10 characters are skipped, longer
ones truncated to 280) and views = 10×(likes+retweets). -/
theorem extracted_tweet_invariants :
    (∀ (st : String) (i : Nat) (u : String) (item : RawItem) (t : Tweet),
      extractTweet st i u item = some t →
      t.text ≠ "" ∧ t.text.length ≤ 280 ∧ t.views = 10 * (t.likes + t.retweets)) ∧
    (∀ (st : String) (i : Nat) (u : String) (item : RawItem) (raw : String),
      item.textContent = some raw → (processText raw).length < 10 →
      extractTweet st i u item = none) := by
  constructor
  · intro st i u item t h
    obtain ⟨tc, lk, rt, rp, dt, sid⟩ := item
    cases tc with
    | none => exact absurd h (by simp [extractTweet])
    | some raw =>
      simp only [extractTweet] at h
      by_cases hlen : (processText raw).length < 10
      · rw [if_pos hlen] at h; exact absurd h (by simp)
      · rw [if_neg hlen] at h
        obtain rfl := Option.some.inj h
        refine ⟨?_, ?_, Nat.mul_comm _ _⟩
        · intro hempty
          have hdata : ((processText raw).take 280) = [] :=
            congrArg String.data hempty
          have h10 : 10 ≤ (processText raw).length := Nat.le_of_not_lt hlen
          have : ((processText raw).take 280).length = 0 := by rw [hdata]; rfl
          rw [List.length_take] at this
          omega
        · show ((processText raw).take 280).length ≤ 280
          rw [List.length_take]
          exact Nat.min_le_left _ _
  · intro st i u item raw hc hlen
    obtain ⟨tc, lk, rt, rp, dt, sid⟩ := item
    simp only at hc
    subst hc
    simp only [extractTweet]
    rw [if_pos hlen]

/-- Witness for C10 at a concrete extraction. -/
theorem extracted_tweet_invariants_witness :
    extractedEx.text ≠ "" ∧ extractedEx.text.length ≤ 280 ∧
      extractedEx.views = 10 * (extractedEx.likes + extractedEx.retweets) :=
  extracted_tweet_invariants.1 "nitter" 0 "u" rawItemEx extractedEx rfl

lemma processElems_length_le (maxResults : Nat) (st u : String)
    (items : List RawItem) : ∀ (i : Nat) (tweets : List Tweet),
    tweets.length ≤ maxResults →
    (processElems maxResults st u i tweets items).length ≤ maxResults := by
  induction items with
  | nil => intro i tweets h; exact h
  | cons item rest ih =>
    intro i tweets h
    unfold processElems
    by_cases hge : maxResults ≤ tweets.length
    · rw [if_pos hge]; exact h
    · rw [if_neg hge]
      cases hET : extractTweet st i u item with
      | none => exact ih _ _ h
      | some t =>
        refine ih _ _ ?_
        rw [List.length_append]
        simp only [List.length_singleton]
        omega

lemma trySource_length_le (maxResults : Nat) (st u : String)
    (attempt : Nat → PageOutcome) (tweets : List Tweet)
    (h : tweets.length ≤ maxResults) :
    (trySource maxResults st u attempt tweets).length ≤ maxResults := by
  unfold trySource
  cases firstNonFailure attempt with
  | none => exact h
  | some o =>
    cases o with
    | elems items => exact processElems_length_le _ _ _ _ _ _ h
    | failure => exact h
    | errorPanel => exact h
    | challenge => exact h
    | noTweets => exact h

lemma scrapeGo_length_le (maxResults : Nat) (username : String)
    (env : String × String × String → Nat → PageOutcome)
    (srcs : List (String × String × String)) : ∀ tweets : List Tweet,
    tweets.length ≤ maxResults →
    (scrapeGo maxResults username env srcs tweets).1.length ≤ maxResults := by
  induction srcs with
  | nil => intro tweets h; exact h
  | cons s rest ih =>
    intro tweets h
    unfold scrapeGo
    by_cases hge : maxResults ≤ tweets.length
    · rw [if_pos hge]; exact h
    · rw [if_neg hge]
      exact ih _ (trySource_length_le _ _ _ _ _ h)

/-- C8: the scraper never returns more than `max_results` tweets, and once
the collected tweets reach `max_results` the source loop attempts no further
source: it returns at once with an empty attempted-source list. -/
theorem scrape_with_playwright_respects_max (username : String)
    (env : String × String × String → Nat → PageOutcome) (maxResults : Nat) :
    (scrape_with_playwright username env maxResults).length ≤ maxResults ∧
    (∀ (srcs : List (String × String × String)) (tweets : List Tweet),
      maxResults ≤ tweets.length →
      scrapeGo maxResults username env srcs tweets = (tweets, [])) := by
  constructor
  · exact scrapeGo_length_le _ _ _ _ _ (Nat.zero_le _)
  · intro srcs tweets h
    cases srcs with
    | nil => rfl
    | cons s rest =>
      unfold scrapeGo
      rw [if_pos h]

/-- Environment where every page load raises. -/
def envAllFail : String × String × String → Nat → PageOutcome := fun _ _ => .failure

/-- Witness for C8: with target 0 already met, no source is attempted. -/
theorem scrape_with_playwright_respects_max_witness :
    scrapeGo 0 "u" envAllFail (sourceList "u") [] = ([], []) :=
  (scrape_with_playwright_respects_max "u" envAllFail 0).2 (sourceList "u") []
    (Nat.le_refl 0)

/-! ### Engagement estimation (twitter_tool.py lines 596-634 and
post_generator.py lines 222-288) -/

/-- Python `str.lower()` (ASCII fragment). -/
def lowerStr (s : String) : String := String.mk (s.data.map lowerChar)

/-- Python `int(x)`: truncation toward zero (numerator T-divided by the
denominator). -/
def pyInt (q : ℚ) : ℤ := Int.tdiv q.num (q.den : ℤ)

/-- Formatting `f"{x:.1f}"` on a nonnegative value, modelled as rounding the
rational to one decimal place (half up) and printing `intpart.frac`. -/
def fmtOneDec (q : ℚ) : String :=
  let n : Nat := (Rat.floor (q * 10 + 1 / 2)).toNat
  toString (n / 10) ++ "." ++ toString (n % 10)

/-- The fixed metric dict both estimators return for an empty tweet list
(and the TwitterTool variant on any internal exception). -/
def defaultMetrics : RDict :=
  [("likes", .str "100-300"), ("retweets", .str "10-50"), ("views", .str "1K-3K")]

/-- Helper `format_number` of `TwitterTool.estimate_engagement`
(twitter_tool.py lines 615-621): applied to the unrounded scaled value;
values below 1000 are truncated to int. -/
def tt_format_number (num : ℚ) : String :=
  if 1000000 ≤ num then fmtOneDec (num / 1000000) ++ "M"
  else if 1000 ≤ num then fmtOneDec (num / 1000) ++ "K"
  else toString (pyInt num)

/-- Method `TwitterTool.estimate_engagement(engagement_level, tweets)`
(twitter_tool.py lines 596-634): positive stats averaged (fixed fallback
values when none are positive), scaled by the level multiplier
(high 1.5, low 0.5, else 1.0), formatted as a 0.7×–1.3× range. -/
def tt_estimate_engagement (engagement_level : String) (tweets : List Tweet) : RDict :=
  if tweets.isEmpty then defaultMetrics
  else
    let likes0 := (tweets.map (fun t => t.likes)).filter (fun n => 0 < n)
    let retweets0 := (tweets.map (fun t => t.retweets)).filter (fun n => 0 < n)
    let views0 := (tweets.map (fun t => t.views)).filter (fun n => 0 < n)
    let likes := if likes0.isEmpty then [200] else likes0
    let retweets := if retweets0.isEmpty then [30] else retweets0
    let views := if views0.isEmpty then [2000] else views0
    let avg_likes : ℚ := (likes.sum : ℚ) / likes.length
    let avg_retweets : ℚ := (retweets.sum : ℚ) / retweets.length
    let avg_views : ℚ := (views.sum : ℚ) / views.length
    let multiplier : ℚ :=
      if lowerStr engagement_level = "high" then 3 / 2
      else if lowerStr engagement_level = "low" then 1 / 2
      else 1
    let likes_est := avg_likes * multiplier
    let retweets_est := avg_retweets * multiplier
    let views_est := avg_views * multiplier
    [("likes", .str (tt_format_number (likes_est * (7 / 10)) ++ "-"
        ++ tt_format_number (likes_est * (13 / 10)))),
     ("retweets", .str (tt_format_number (retweets_est * (7 / 10)) ++ "-"
        ++ tt_format_number (retweets_est * (13 / 10)))),
     ("views", .str (tt_format_number (views_est * (7 / 10)) ++ "-"
        ++ tt_format_number (views_est * (13 / 10))))]

/-- Python `max` over a list, used only on nonempty lists of positives. -/
def pyMax (l : List Nat) : Nat := l.foldl Nat.max 0

/-- Helper `format_number` of `PostGenerator.estimate_engagement`
(post_generator.py lines 276-282): applied to the already-truncated int. -/
def pg_format_number (num : ℤ) : String :=
  if 1000000 ≤ num then fmtOneDec ((num : ℚ) / 1000000) ++ "M"
  else if 1000 ≤ num then fmtOneDec ((num : ℚ) / 1000) ++ "K"
  else toString num

/-- Method `PostGenerator.estimate_engagement(engagement_level,
sample_tweets)` (post_generator.py lines 222-288): positive stats with
avg/max fallbacks; high uses max×0.7..1.3, medium avg×0.7..1.2, low
avg×0.3..0.7, each truncated to int, then formatted. -/
def pg_estimate_engagement (engagement_level : String) (sample_tweets : List Tweet) : RDict :=
  if sample_tweets.isEmpty then defaultMetrics
  else
    let likes : List Nat := (sample_tweets.map (fun t => t.likes)).filter (fun n => 0 < n)
    let retweets : List Nat := (sample_tweets.map (fun t => t.retweets)).filter (fun n => 0 < n)
    let views : List Nat := (sample_tweets.map (fun t => t.views)).filter (fun n => 0 < n)
    let avg_likes : ℚ := if likes.isEmpty then 200 else (likes.sum : ℚ) / likes.length
    let max_likes : ℚ := if likes.isEmpty then 500 else (pyMax likes : ℚ)
    let avg_retweets : ℚ := if retweets.isEmpty then 30 else (retweets.sum : ℚ) / retweets.length
    let max_retweets : ℚ := if retweets.isEmpty then 100 else (pyMax retweets : ℚ)
    let avg_views : ℚ := if views.isEmpty then 2000 else (views.sum : ℚ) / views.length
    let max_views : ℚ := if views.isEmpty then 5000 else (pyMax views : ℚ)
    let lvl := lowerStr engagement_level
    let p : (ℤ × ℤ) × (ℤ × ℤ) × (ℤ × ℤ) :=
      if lvl = "high" then
        ((pyInt (max_likes * (7 / 10)), pyInt (max_likes * (13 / 10))),
         (pyInt (max_retweets * (7 / 10)), pyInt (max_retweets * (13 / 10))),
         (pyInt (max_views * (7 / 10)), pyInt (max_views * (13 / 10))))
      else if lvl = "medium" then
        ((pyInt (avg_likes * (7 / 10)), pyInt (avg_likes * (12 / 10))),
         (pyInt (avg_retweets * (7 / 10)), pyInt (avg_retweets * (12 / 10))),
         (pyInt (avg_views * (7 / 10)), pyInt (avg_views * (12 / 10))))
      else
        ((pyInt (avg_likes * (3 / 10)), pyInt (avg_likes * (7 / 10))),
         (pyInt (avg_retweets * (3 / 10)), pyInt (avg_retweets * (7 / 10))),
         (pyInt (avg_views * (3 / 10)), pyInt (avg_views * (7 / 10))))
    [("likes", .str (pg_format_number p.1.1 ++ "-" ++ pg_format_number p.1.2)),
     ("retweets", .str (pg_format_number p.2.1.1 ++ "-" ++ pg_format_number p.2.1.2)),
     ("views", .str (pg_format_number p.2.2.1 ++ "-" ++ pg_format_number p.2.2.2))]

/-- Tweet used in the C7 counterexample. -/
def tweetC7 : Tweet :=
  { id := "9", text := "some sample tweet text", likes := 100, retweets := 10, replies := 0,
    views := 1000, date := "d", user := "u", engagement_score := some 120 }

/-- Counterexample to C7: at level "high" on one concrete tweet, the
TwitterTool estimator scales the average by 1.5 (likes range "105-195")
while the PostGenerator estimator uses the maximum (likes range "70-130"),
so the two implementations are not equivalent. -/
theorem estimate_engagement_not_equivalent :
    dictGet (tt_estimate_engagement "high" [tweetC7]) "likes" = some (.str "105-195") ∧
    dictGet (pg_estimate_engagement "high" [tweetC7]) "likes" = some (.str "70-130") ∧
    tt_estimate_engagement "high" [tweetC7] ≠ pg_estimate_engagement "high" [tweetC7] := by
  have h1 : dictGet (tt_estimate_engagement "high" [tweetC7]) "likes"
      = some (JsonVal.str "105-195") := by with_unfolding_all rfl
  have h2 : dictGet (pg_estimate_engagement "high" [tweetC7]) "likes"
      = some (JsonVal.str "70-130") := by with_unfolding_all rfl
  refine ⟨h1, h2, fun h => ?_⟩
  rw [h, h2] at h1
  have h3 := Option.some.inj h1
  have h4 : ("70-130" : String) = "105-195" := by injection h3
  exact absurd h4 (by decide)

/-- C7 amended: the two estimators agree exactly on the empty sample list,
where both return the fixed default metric dict, for every prediction level;
on nonempty lists they differ (see the counterexample). -/
theorem estimate_engagement_agree_on_empty (engagement_level : String) :
    tt_estimate_engagement engagement_level [] = pg_estimate_engagement engagement_level []
      ∧ tt_estimate_engagement engagement_level [] = defaultMetrics :=
  ⟨rfl, rfl⟩

/-! ### Profile scraping result (`scrape_profile`, twitter_tool.py lines
278-348) -/

/-- Python stable descending sort by `tweet.get("engagement_score", 0)`
(twitter_tool.py line 312). -/
def sortByScoreDesc (tweets : List Tweet) : List Tweet :=
  tweets.mergeSort (fun a b => b.engagement_score.getD 0 ≤ a.engagement_score.getD 0)

/-- JSON form of the tweet record, fields in the insertion order of
twitter_tool.py lines 232-242 (the score entry absent when unset). -/
def tweetToJson (t : Tweet) : JsonVal :=
  .obj ([("id", .str t.id), ("text", .str t.text), ("likes", .num (t.likes : ℚ)),
         ("retweets", .num (t.retweets : ℚ)), ("replies", .num (t.replies : ℚ)),
         ("views", .num (t.views : ℚ)), ("date", .str t.date), ("user", .str t.user)] ++
    (match t.engagement_score with
     | some q => [("engagement_score", .num q)]
     | none => []))

/-- Method `scrape_profile(username, max_tweets)` (twitter_tool.py lines
278-348): `scrape_outcome` holds the result of `scrape_with_playwright`
(`Except.error` when the scrape raised); `analyze` abstracts the LLM-driven
`analyze_tweets`, which never raises (it catches internally). -/
def scrape_profile (username : String)
    (scrape_outcome : Except String (List Tweet))
    (analyze : List Tweet → RDict) : RDict :=
  match scrape_outcome with
  | .error e =>
    [("success", .bool false),
     ("message", .str ("Error scraping profile: " ++ e)),
     ("tweet_count", .num 0), ("top_tweets_count", .num 0),
     ("performance_analysis", .obj []),
     ("sample_tweets", .arr []), ("tweets", .arr [])]
  | .ok tweets =>
    if tweets.isEmpty then
      [("success", .bool false),
       ("message", .str ("No tweets found for @" ++ username
         ++ ". The user may not exist, have no public tweets, or the sources may be unavailable.")),
       ("tweet_count", .num 0), ("top_tweets_count", .num 0),
       ("performance_analysis", .obj []),
       ("sample_tweets", .arr []), ("tweets", .arr [])]
    else
      let unique_tweets := deduplicate_tweets tweets
      let top_tweets := (sortByScoreDesc unique_tweets).take 30
      let analysis := analyze top_tweets
      [("success", .bool true),
       ("message", .str ("Successfully scraped profile for @" ++ username)),
       ("tweet_count", .num (unique_tweets.length : ℚ)),
       ("top_tweets_count", .num (top_tweets.length : ℚ)),
       ("performance_analysis", .obj analysis),
       ("sample_tweets", .arr ((top_tweets.take 5).map tweetToJson)),
       ("tweets", .arr ((top_tweets.take 10).map tweetToJson))]

/-- C6: a scrape that collects zero posts returns a non-success result with
empty payload: success false, tweet_count and top_tweets_count 0, empty
performance_analysis, and empty sample_tweets and tweets lists. -/
theorem scrape_profile_empty_failure (username : String)
    (analyze : List Tweet → RDict) :
    dictGet (scrape_profile username (.ok []) analyze) "success" = some (.bool false) ∧
    dictGet (scrape_profile username (.ok []) analyze) "tweet_count" = some (.num 0) ∧
    dictGet (scrape_profile username (.ok []) analyze) "top_tweets_count" = some (.num 0) ∧
    dictGet (scrape_profile username (.ok []) analyze) "performance_analysis" = some (.obj []) ∧
    dictGet (scrape_profile username (.ok []) analyze) "sample_tweets" = some (.arr []) ∧
    dictGet (scrape_profile username (.ok []) analyze) "tweets" = some (.arr []) :=
  ⟨rfl, rfl, rfl, rfl, rfl, rfl⟩

/-! ### Post generation (`generate_post`, twitter_tool.py lines 441-566)

The LLM calls and reads of stored data are abstracted to the values they
produce; the deterministic tail of the method (JSON recovery, defaults,
hashtag formatting, text cleanup, engagement estimation, success flag) is
embedded directly, with the dynamic-typing errors Python would raise carried
in `Except` and converted by the outer handler of lines 564-566. -/

/-- Method `_format_hashtag(tag)` (twitter_tool.py lines 589-594) on a
string: empty gives empty, else `#` and whitespace are removed and the rest
lowercased. -/
def format_hashtag (tag : String) : String :=
  if tag = "" then ""
  else lowerStr (String.mk (tag.data.filter (fun c => !(c == '#' || isSpaceChar c))))

/-- Tag removal `re.sub(r'<[^>]+>', '', text)`: every `<`, a non-empty run
of characters other than `>`, and a closing `>` is dropped; other characters
are kept. -/
def stripTags (l : List Char) : List Char :=
  match l with
  | [] => []
  | c :: rest =>
    if c == '<' && !((rest.takeWhile (fun d => !(d == '>'))).isEmpty)
        && !((rest.dropWhile (fun d => !(d == '>'))).isEmpty) then
      stripTags ((rest.dropWhile (fun d => !(d == '>'))).drop 1)
    else c :: stripTags rest
termination_by l.length
decreasing_by
  · simp only [List.length_cons]
    have h1 := (List.dropWhile_sublist (l := rest) (fun d => !(d == '>'))).length_le
    have h2 := List.length_drop 1 (rest.dropWhile (fun d => !(d == '>')))
    omega
  · simp only [List.length_cons]
    omega

/-- Character class of `re.sub(r'[*_`#]', '', text)`. -/
def isMarkdownChar (c : Char) : Bool :=
  c == '*' || c == '_' || c == '\x60' || c == '#'

/-- Replacement `re.sub(r'\\"', '"', text)`: each backslash-quote pair
becomes a quote. -/
def unescapeQuotes : List Char → List Char
  | [] => []
  | '\\' :: '"' :: rest => '"' :: unescapeQuotes rest
  | c :: rest => c :: unescapeQuotes rest

/-- Method `_clean_post_text` on a string (twitter_tool.py lines 583-587):
strip tags, remove markdown characters, unescape quotes, then
`' '.join(text.split())` (which also subsumes the final `.strip()`). -/
def clean_text_str (s : String) : String :=
  String.mk (collapseWs (stripChars
    (unescapeQuotes ((stripTags s.data).filter (fun c => !isMarkdownChar c)))))

mutual

/-- Method `_clean_post_text(text)` (twitter_tool.py lines 576-587) on a
JSON value: falsy input gives `""`, a list is cleaned element-wise, a string
is cleaned; any other truthy value makes `re.sub` raise a TypeError. -/
def clean_post_text : JsonVal → Except String JsonVal
  | .arr xs =>
    if !pyTruthy (.arr xs) then .ok (.str "")
    else (clean_post_list xs).map JsonVal.arr
  | .str s =>
    if !pyTruthy (.str s) then .ok (.str "")
    else .ok (.str (clean_text_str s))
  | v =>
    if !pyTruthy v then .ok (.str "")
    else .error "TypeError"

/-- Element-wise `_clean_post_text` over a list. -/
def clean_post_list : List JsonVal → Except String (List JsonVal)
  | [] => .ok []
  | x :: xs => do
    let y ← clean_post_text x
    let ys ← clean_post_list xs
    .ok (y :: ys)

end

/-- Python iteration over a JSON value (`for tag in result["hashtags"]`):
lists yield their elements, strings their one-character substrings, objects
their keys; other values raise TypeError. -/
def pyIter : JsonVal → Except String (List JsonVal)
  | .arr xs => .ok xs
  | .str s => .ok (s.data.map (fun c => .str (String.mk [c])))
  | .obj fs => .ok (fs.map (fun e => .str e.1))
  | _ => .error "TypeError"

/-- Comprehension `[self._format_hashtag(tag) for tag in result["hashtags"]
if tag]` (twitter_tool.py line 555): iterate, keep truthy tags, format each;
a truthy non-string tag makes `re.sub` raise. -/
def formatHashtags (v : JsonVal) : Except String (List JsonVal) := do
  let items ← pyIter v
  (items.filter pyTruthy).mapM (fun t =>
    match t with
    | .str s => Except.ok (JsonVal.str (format_hashtag s))
    | _ => Except.error "TypeError")

/-- Python substring containment `needle in hay`. -/
def strContains (hay needle : String) : Bool :=
  (beforeSub needle.data hay.data).isSome

/-- Method `_get_best_time(location, length)` (twitter_tool.py lines
568-574). -/
def get_best_time (location length : String) : String :=
  if strContains (lowerStr location) "india" || strContains (lowerStr location) "bengaluru" then
    if length ≠ "Long" then "Post at 9 AM IST or 6 PM IST"
    else "Post at 9 AM IST, follow-ups every 2-3 minutes"
  else if strContains (lowerStr location) "us" || strContains (lowerStr location) "america" then
    if length ≠ "Long" then "Post at 8 AM PST or 5 PM PST"
    else "Post at 8 AM PST, follow-ups every 2-3 minutes"
  else
    if length ≠ "Long" then "Post at 8-10 AM or 6-8 PM local time"
    else "Post at 8 AM local time, follow-ups every 2-3 minutes"

/-- Expression `topic.lower().replace(" ", "_")` (twitter_tool.py line 549). -/
def snakeTopic (topic : String) : String :=
  String.mk ((lowerStr topic).data.map (fun c => if c == ' ' then '_' else c))

/-- Call of `estimate_engagement` on a JSON engagement level: the method's
internal try/except turns a non-string level (AttributeError on `.lower()`)
into the default metrics. -/
def tt_estimate_engagement_json (lvl : JsonVal) (tweets : List Tweet) : RDict :=
  match lvl with
  | .str s => tt_estimate_engagement s tweets
  | _ => defaultMetrics

/-- Method `generate_post(username, topic, length, user_id)` (twitter_tool.py
lines 441-566). Abstracted effects: `loads` is the JSON parser, `tweets0`
the loaded tweet list, `user_location` the stored profile's location string,
`hashtags_response` and `llm_response` the raw LLM replies for the hashtag
and main prompts, and `exception` an injected environment failure
(network/LLM/IO) caught by the outer handler (lines 564-566). -/
def generate_post (loads : String → Option JsonVal) (tweets0 : List Tweet)
    (user_location : String) (topic length : String)
    (hashtags_response llm_response : String)
    (exception : Option String) : RDict :=
  match exception with
  | some e => [("success", .bool false), ("error", .str e)]
  | none =>
    let tweets := sortByScoreDesc tweets0
    let hashtags : List JsonVal :=
      match loads hashtags_response with
      | some (.arr xs) => xs
      | _ => []
    let r0 := parse_json_from_response loads llm_response
    let r1 := match r0 with | .arr [x] => x | v => v
    let r2 := if pyTruthy r1 then r1 else .obj []
    match r2 with
    | .obj d0 =>
      let d1 := setdefault d0 "post" (.str "Could not generate post.")
      let d2 := setdefault d1 "hashtags"
        (.arr (if !hashtags.isEmpty then hashtags
               else [.str (format_hashtag (snakeTopic topic))]))
      let d3 := setdefault d2 "best_time" (.str (get_best_time user_location length))
      let d4 := setdefault d3 "viral_elements"
        (.arr [.str "emotional appeal", .str "provocative question", .str "challenge"])
      let d5 := setdefault d4 "engagement_prediction" (.str "high")
      match formatHashtags ((dictGet d5 "hashtags").getD .null) with
      | .error e => [("success", .bool false), ("error", .str e)]
      | .ok newTags =>
        let d6 := dictSet d5 "hashtags" (.arr newTags)
        match clean_post_text ((dictGet d6 "post").getD .null) with
        | .error e => [("success", .bool false), ("error", .str e)]
        | .ok cleaned =>
          let d7 := dictSet d6 "post" cleaned
          let d8 := dictSet d7 "estimated_metrics"
            (.obj (tt_estimate_engagement_json
              ((dictGet d7 "engagement_prediction").getD .null) tweets))
          dictSet d8 "success" (.bool true)
    | _ => [("success", .bool false), ("error", .str "AttributeError")]

/-- Counterexample to C5: the failure result of generate_post has success
false but no message field — its error description is under the key "error"
(twitter_tool.py line 566) — shown at a concrete injected exception. -/
theorem generate_post_failure_lacks_message :
    dictGet (generate_post (fun _ => none) [] "unknown" "ai" "Medium" "" ""
      (some "boom")) "success" = some (.bool false) ∧
    dictGet (generate_post (fun _ => none) [] "unknown" "ai" "Medium" "" ""
      (some "boom")) "message" = none ∧
    dictGet (generate_post (fun _ => none) [] "unknown" "ai" "Medium" "" ""
      (some "boom")) "error" = some (.str "boom") :=
  ⟨rfl, rfl, rfl⟩

/-- C5 amended: every failure result of scrape_profile, save_user_info and
get_user_info is a dict with success false and a message field present,
while generate_post's failure result has success false and an error field
but no message field. -/
theorem failure_results_shape :
    (∀ (u e : String) (a : List Tweet → RDict),
      dictGet (scrape_profile u (.error e) a) "success" = some (.bool false) ∧
      (dictGet (scrape_profile u (.error e) a) "message").isSome) ∧
    (∀ (u : String) (a : List Tweet → RDict),
      dictGet (scrape_profile u (.ok []) a) "success" = some (.bool false) ∧
      (dictGet (scrape_profile u (.ok []) a) "message").isSome) ∧
    (∀ (store : UserStore) (e uid : String) (info : RDict),
      dictGet (save_user_info store (some e) uid info).2 "success" = some (.bool false) ∧
      (dictGet (save_user_info store (some e) uid info).2 "message").isSome) ∧
    (∀ (store : UserStore) (e uid : String),
      dictGet (get_user_info store (some e) uid) "success" = some (.bool false) ∧
      (dictGet (get_user_info store (some e) uid) "message").isSome) ∧
    (∀ (store : UserStore) (uid : String), store uid = none →
      dictGet (get_user_info store none uid) "success" = some (.bool false) ∧
      (dictGet (get_user_info store none uid) "message").isSome) ∧
    (∀ (loads : String → Option JsonVal) (tw : List Tweet)
        (loc top len hr lr e : String),
      dictGet (generate_post loads tw loc top len hr lr (some e)) "success"
        = some (.bool false) ∧
      (dictGet (generate_post loads tw loc top len hr lr (some e)) "error").isSome ∧
      dictGet (generate_post loads tw loc top len hr lr (some e)) "message" = none) := by
  refine ⟨fun u e a => ⟨rfl, rfl⟩, fun u a => ⟨rfl, rfl⟩,
    fun s e uid i => ⟨rfl, rfl⟩, fun s e uid => ⟨rfl, rfl⟩,
    fun s uid h => ?_, fun loads tw loc top len hr lr e => ⟨rfl, rfl, rfl⟩⟩
  simp only [get_user_info, h]
  exact ⟨rfl, rfl⟩

/-- Witness for the amended C5 at the concrete missing-file case. -/
theorem failure_results_shape_witness :
    dictGet (get_user_info emptyStore none "nobody") "success" = some (.bool false) ∧
    (dictGet (get_user_info emptyStore none "nobody") "message").isSome :=
  failure_results_shape.2.2.2.2.1 emptyStore "nobody" rfl

end TweetPost
